import Mathlib

/-!
Verification of the UHAS email generator (`src/email-gen.py`).

Shallow embedding of the two pure functions of the repository —
`generate_email` and `get_school_from_programme` — together with the
sidebar "Add New School" handler and the hardcoded default school
mapping.  Python strings are modelled as Lean `String` (a wrapper
around `List Char`); Python `str.lower()` is modelled per-character on
the ASCII range by `pyLowerChar`; Python's substring operator
`needle in haystack` is `pySubstr` on the character lists; a
Python `dict` (which iterates in insertion order) is an association
list `List (String × List String)`; a missing (NaN) `middle` value is
`Option.none`; the `IndexError` raised by `first[0]` on an empty
`first` is an explicit `Except.error`.
-/

/-- Error raised by the email formatter.  `InputError` models the
index error that `first[0]` raises in `generate_email` when
`firstName` is empty (the spec's `InputError`). -/
inductive EmailError where
  | InputError
  deriving DecidableEq, Repr

/-- Model of Python `str.lower()` on one character (ASCII range):
uppercase `A`–`Z` (codepoints 65–90) map 32 codepoints up, everything
else is unchanged. -/
def pyLowerChar (c : Char) : Char :=
  if 65 ≤ c.toNat ∧ c.toNat ≤ 90 then Char.ofNat (c.toNat + 32) else c

/-- Model of Python `str.lower()` on a whole string. -/
def pyLower (s : String) : String :=
  String.mk (s.data.map pyLowerChar)

/-- Substring test on character lists: `true` iff `needle` occurs as a
contiguous sublist of the second argument (an empty needle always
occurs). -/
def pySubstr (needle : List Char) : List Char → Bool
  | [] => needle.isEmpty
  | c :: rest => needle.isPrefixOf (c :: rest) || pySubstr needle rest

/-- Model of Python's substring test `needle in haystack`. -/
def pyContains (haystack needle : String) : Bool :=
  pySubstr needle.data haystack.data

/-- Model of Python `str.isspace`-style whitespace as stripped by
`str.strip()` (ASCII range): space, tab, newline, carriage return,
vertical tab, form feed. -/
def pyIsSpace (c : Char) : Bool :=
  c = ' ' || c = '\t' || c = '\n' || c = '\r' || c = '\x0b' || c = '\x0c'

/-- Truthiness of Python `middle.strip()`: the stripped string is
non-empty iff the string contains a non-whitespace character. -/
def stripTruthy (s : String) : Bool :=
  s.data.any (fun c => !pyIsSpace c)

/-- The `middle_letter` computation of `generate_email` (line 10 of
`src/email-gen.py`):
`middle[0].lower() if pd.notna(middle) and middle.strip() else ''`.
`none` models a NaN cell (`pd.notna` false); when the condition holds,
`middle` is non-empty, so the `[]` branch of the inner match is
unreachable. -/
def middle_letter (middle : Option String) : List Char :=
  match middle with
  | none => []
  | some m =>
    if stripTruthy m then
      match m.data with
      | [] => []
      | mc :: _ => [pyLowerChar mc]
    else []

/-- The `suffix` computation of `generate_email` (lines 14–16 of
`src/email-gen.py`): `f"{str(year)[-2:]}sw"` when
`student_type.lower() == "sandwich"`, else `""`.  `str(year)[-2:]` is
the last two characters of the decimal representation of `year`. -/
def year_suffix (year : Nat) (student_type : String) : List Char :=
  if pyLower student_type = "sandwich" then
    (Nat.repr year).data.drop ((Nat.repr year).data.length - 2) ++ ['s', 'w']
  else []

/-- Embedding of `generate_email` from `src/email-gen.py` lines 8–19.

```python
def generate_email(first, middle, last, dept, year, student_type):
    first_letter = first[0].lower()
    middle_letter = middle[0].lower() if pd.notna(middle) and middle.strip() else ''
    lastname = last.lower().replace(' ', '')
    suffix = ""
    if student_type.lower() == "sandwich":
        suffix = f"{str(year)[-2:]}sw"
    email = f"{first_letter}{middle_letter}{lastname}{suffix}@{dept.lower()}.uhas.edu.gh"
    return email
```

`first[0]` on an empty `first` raises, modelled as
`Except.error .InputError`; `last.lower().replace(' ', '')` is
lowercasing followed by removal of every space character. -/
def generate_email (first : String) (middle : Option String) (last dept : String)
    (year : Nat) (student_type : String) : Except EmailError String :=
  match first.data with
  | [] => .error .InputError
  | c :: _ =>
    .ok (String.mk (pyLowerChar c :: middle_letter middle
          ++ (last.data.map pyLowerChar).filter (fun ch => ch ≠ ' ')
          ++ year_suffix year student_type
          ++ '@' :: (dept.data.map pyLowerChar) ++ ".uhas.edu.gh".data))

/-- Embedding of `get_school_from_programme` from `src/email-gen.py` lines 25–29.

```python
def get_school_from_programme(programme, mapping):
    for school, progs in mapping.items():
        if any(prog.lower() in str(programme).lower() for prog in progs):
            return school
    return "unknown"
```

The `programme` argument is the string form `str(programme)` (a NaN
cell becomes the string `"nan"`, `None` becomes `"None"`, so every
input reaches the loop as a plain string). -/
def get_school_from_programme (programme : String)
    (mapping : List (String × List String)) : String :=
  match mapping with
  | [] => "unknown"
  | (school, progs) :: rest =>
    if progs.any (fun prog => pyContains (pyLower programme) (pyLower prog)) then
      school
    else
      get_school_from_programme programme rest

/-- The hardcoded default `school_mapping` from `src/email-gen.py`
lines 42–47. -/
def school_mapping_default : List (String × List String) :=
  [("sonam", ["Nursing", "Midwifery", "Public Health Nursing", "Master of Philosophy"]),
   ("sph", ["Public Health", "Health Promotion", "Disease Control",
            "Environmental Health", "Nutrition"]),
   ("sahs", ["Dietetics", "Medical Laboratory Sciences",
             "Orthotics and Prosthetics", "Physiotherapy"])]

/-- The "Add New School" handler from `src/email-gen.py` lines 73–79:
when both text inputs are non-empty and the school code is not already
a key, the new school is inserted with its single seed programme.
Python dict insertion places the new key last in iteration order,
hence the append. -/
def add_school (mapping : List (String × List String))
    (new_school new_school_prog : String) : List (String × List String) :=
  if new_school ≠ "" ∧ new_school_prog ≠ "" ∧
      mapping.all (fun e => e.1 ≠ new_school) then
    mapping ++ [(new_school, [new_school_prog])]
  else
    mapping

deriving instance DecidableEq for Except

/-! ## Helper lemmas about lowercasing -/

/-- Applying `Char.ofNat` to a codepoint below the surrogate range round-trips
through `Char.toNat`. -/
theorem toNat_ofNat_of_valid (n : Nat) (h : n < 0xd800) : (Char.ofNat n).toNat = n := by
  unfold Char.ofNat
  rw [dif_pos (Or.inl h)]
  simp [Char.ofNatAux, Char.toNat, UInt32.toNat, BitVec.toNat_ofNatLt]

/-- Lowercasing a character twice is the same as lowercasing it once. -/
theorem pyLowerChar_idem (c : Char) : pyLowerChar (pyLowerChar c) = pyLowerChar c := by
  unfold pyLowerChar
  by_cases h : 65 ≤ c.toNat ∧ c.toNat ≤ 90
  · rw [if_pos h]
    have ht : (Char.ofNat (c.toNat + 32)).toNat = c.toNat + 32 :=
      toNat_ofNat_of_valid _ (by omega)
    rw [if_neg (by omega)]
  · rw [if_neg h, if_neg h]

/-- Decimal (and hex) digit characters are fixed by lowercasing. -/
theorem pyLowerChar_digitChar (d : Nat) : pyLowerChar (Nat.digitChar d) = Nat.digitChar d := by
  by_cases h : d < 16
  · interval_cases d <;> decide
  · have hstar : Nat.digitChar d = '*' := by
      unfold Nat.digitChar
      repeat rw [if_neg (by omega)]
    rw [hstar]
    decide

/-- Every character put out by `Nat.toDigitsCore` over a lower-fixed
accumulator is fixed by lowercasing. -/
theorem pyLowerChar_toDigitsCore (b : Nat) :
    ∀ (f n : Nat) (ds : List Char), (∀ c ∈ ds, pyLowerChar c = c) →
      ∀ c ∈ Nat.toDigitsCore b f n ds, pyLowerChar c = c := by
  intro f
  induction f with
  | zero =>
    intro n ds h c hc
    exact h c hc
  | succ f ih =>
    intro n ds h c hc
    simp only [Nat.toDigitsCore] at hc
    have hds : ∀ c ∈ Nat.digitChar (n % b) :: ds, pyLowerChar c = c := by
      intro c hc
      rcases List.mem_cons.mp hc with h1 | h2
      · subst h1; exact pyLowerChar_digitChar _
      · exact h c h2
    split at hc
    · exact hds c hc
    · exact ih (n / b) _ hds c hc

/-- Every character of the decimal representation of a natural number
is fixed by lowercasing. -/
theorem pyLowerChar_repr (y : Nat) : ∀ c ∈ (Nat.repr y).data, pyLowerChar c = c := by
  intro c hc
  have hd : (Nat.repr y).data = Nat.toDigits 10 y := rfl
  rw [hd] at hc
  exact pyLowerChar_toDigitsCore 10 (y + 1) y [] (by intro c hc; cases hc) c hc

/-- A list all of whose characters are fixed by lowercasing maps to
itself under lowercasing. -/
theorem map_pyLowerChar_eq_self {l : List Char} (h : ∀ c ∈ l, pyLowerChar c = c) :
    l.map pyLowerChar = l := by
  induction l with
  | nil => rfl
  | cons a t ih => simp_all

/-- Characters produced by lowercasing are fixed by lowercasing. -/
theorem mem_map_pyLowerChar_fixed (l : List Char) :
    ∀ c ∈ l.map pyLowerChar, pyLowerChar c = c := by
  intro c hc
  rcases List.mem_map.mp hc with ⟨a, _, rfl⟩
  exact pyLowerChar_idem a

/-- Every character of a `middle_letter` chunk is fixed by
lowercasing. -/
theorem middle_letter_fixed (middle : Option String) :
    ∀ c ∈ middle_letter middle, pyLowerChar c = c := by
  rcases middle with _ | m
  · intro c hc; cases hc
  · intro c hc
    simp only [middle_letter] at hc
    by_cases hs : stripTruthy m
    · rw [if_pos hs] at hc
      rcases hd : m.data with _ | ⟨mc, ms⟩ <;> rw [hd] at hc
      · cases hc
      · rcases List.mem_singleton.mp hc with rfl
        exact pyLowerChar_idem mc
    · rw [if_neg hs] at hc
      cases hc

/-- Every character of a `year_suffix` chunk is fixed by
lowercasing. -/
theorem year_suffix_fixed (year : Nat) (student_type : String) :
    ∀ c ∈ year_suffix year student_type, pyLowerChar c = c := by
  intro c hc
  unfold year_suffix at hc
  by_cases hs : pyLower student_type = "sandwich"
  · rw [if_pos hs] at hc
    rcases List.mem_append.mp hc with h1 | h2
    · exact pyLowerChar_repr year c (List.mem_of_mem_drop h1)
    · rcases List.mem_cons.mp h2 with rfl | h3
      · decide
      · rcases List.mem_singleton.mp h3 with rfl
        decide
  · rw [if_neg hs] at hc
    cases hc

/-- Whether one mapping entry matches a programme: some keyword of the
entry is a case-insensitive substring of the programme. -/
def dept_matches (programme : String) (e : String × List String) : Bool :=
  e.2.any (fun prog => pyContains (pyLower programme) (pyLower prog))

/-! ## Claim theorems -/

/-- C5: `generate_email` on the two concrete spec examples:
`("John", "", "Doe", "sonam", 2024, "Regular")` gives
`"jdoe@sonam.uhas.edu.gh"`, and
`("Ama", "Kofi", "Mensah", "sph", 2025, "Sandwich")` gives
`"akmensah25sw@sph.uhas.edu.gh"`. -/
theorem C5_concrete_examples :
    generate_email "John" (some "") "Doe" "sonam" 2024 "Regular" =
        .ok "jdoe@sonam.uhas.edu.gh" ∧
      generate_email "Ama" (some "Kofi") "Mensah" "sph" 2025 "Sandwich" =
        .ok "akmensah25sw@sph.uhas.edu.gh" :=
  ⟨rfl, rfl⟩

/-- C6: with the hardcoded default mapping, `"BSc Nursing"` classifies
to `"sonam"` and `"Underwater Basket Weaving"` classifies to
`"unknown"`. -/
theorem C6_default_mapping_examples :
    get_school_from_programme "BSc Nursing" school_mapping_default = "sonam" ∧
      get_school_from_programme "Underwater Basket Weaving" school_mapping_default =
        "unknown" := by
  constructor <;> decide

/-- C3: for every middleName, lastName, department, admissionYear and
studentType, `generate_email` with an empty firstName fails with an
`InputError` (modelling the index error `first[0]` raises) rather than
silently returning an email. -/
theorem C3_empty_first_errors (middle : Option String) (last dept : String)
    (year : Nat) (student_type : String) :
    generate_email "" middle last dept year student_type = .error .InputError :=
  rfl

/-- C8: the classifier is deterministic in its arguments — classifying
the same programme twice against the same (unmodified) mapping yields
the same department code both times.  In this pure embedding the two
calls are literally the same value. -/
theorem C8_classifier_deterministic (programme : String)
    (mapping : List (String × List String)) :
    get_school_from_programme programme mapping =
      get_school_from_programme programme mapping :=
  rfl

/-- C9: `get_school_from_programme` is total (the Lean model returns
normally on every input — the Python code likewise never raises, since
`str(programme)` turns any cell value, including NaN and None, into a
string before matching) and its result is either the literal
`"unknown"` or one of the mapping's keys. -/
theorem C9_classifier_total_range (programme : String)
    (mapping : List (String × List String)) :
    get_school_from_programme programme mapping = "unknown" ∨
      get_school_from_programme programme mapping ∈ mapping.map Prod.fst := by
  induction mapping with
  | nil => exact Or.inl rfl
  | cons e rest ih =>
    obtain ⟨school, progs⟩ := e
    by_cases h : progs.any (fun prog => pyContains (pyLower programme) (pyLower prog))
    · right
      simp [get_school_from_programme, h]
    · rcases ih with h1 | h2
      · left
        simpa [get_school_from_programme, h] using h1
      · right
        simp [get_school_from_programme, h]
        right
        simpa using h2

/-- C2: the classifier returns the key of the first mapping entry, in
insertion order, one of whose keywords is a case-insensitive substring
of the programme, and `"unknown"` when no entry matches — i.e. it is
exactly first-match-wins over `List.find?`. -/
theorem C2_classifier_first_match (programme : String)
    (mapping : List (String × List String)) :
    get_school_from_programme programme mapping =
      ((mapping.find? (dept_matches programme)).map Prod.fst).getD "unknown" := by
  induction mapping with
  | nil => rfl
  | cons e rest ih =>
    obtain ⟨school, progs⟩ := e
    by_cases h : dept_matches programme (school, progs)
    · rw [List.find?_cons_of_pos _ h]
      have h' : progs.any (fun prog => pyContains (pyLower programme) (pyLower prog)) = true := h
      simp [get_school_from_programme, h']
    · rw [List.find?_cons_of_neg _ h]
      have h' : progs.any (fun prog => pyContains (pyLower programme) (pyLower prog)) = false := by
        simpa [dept_matches] using h
      simp [get_school_from_programme, h', ih]

/-- C10: every email `generate_email` returns is entirely lowercase —
it is fixed by lowercasing — whatever the casing of firstName,
middleName, lastName, department or studentType. -/
theorem C10_email_lowercase (first : String) (middle : Option String) (last dept : String)
    (year : Nat) (student_type : String) (email : String)
    (h : generate_email first middle last dept year student_type = Except.ok email) :
    pyLower email = email := by
  obtain ⟨l⟩ := first
  rcases l with _ | ⟨c, cs⟩
  · cases h
  · unfold generate_email at h
    rw [Except.ok.injEq] at h
    subst h
    unfold pyLower
    congr 1
    apply map_pyLowerChar_eq_self
    intro x hx
    simp only [List.mem_append, List.mem_cons] at hx
    rcases hx with ((((rfl | hml) | hln) | hsf) | rfl | hdl) | hcst
    · exact pyLowerChar_idem c
    · exact middle_letter_fixed middle x hml
    · exact mem_map_pyLowerChar_fixed _ x (List.mem_of_mem_filter hln)
    · exact year_suffix_fixed year student_type x hsf
    · decide
    · exact mem_map_pyLowerChar_fixed _ x hdl
    · rcases hcst with rfl | rfl | rfl | rfl | rfl | rfl | rfl | rfl | rfl | rfl | rfl | rfl | h
      all_goals first | decide | cases h

/-- Witness for C10 at a concrete input: the generated email
`"jdoe@sonam.uhas.edu.gh"` equals its own lowercasing. -/
theorem C10_email_lowercase_witness :
    pyLower "jdoe@sonam.uhas.edu.gh" = "jdoe@sonam.uhas.edu.gh" :=
  C10_email_lowercase "John" (some "") "Doe" "sonam" 2024 "Regular"
    "jdoe@sonam.uhas.edu.gh" rfl

/-- The email formula worded exactly as claim C1 states it: the middle
initial is included whenever middleName is non-missing and non-empty —
even when middleName consists only of whitespace. -/
def email_formula_claimed (first : String) (middle : Option String) (last dept : String)
    (year : Nat) (student_type : String) : String :=
  let f := String.mk ((first.data.take 1).map pyLowerChar)
  let m := match middle with
    | none => ""
    | some mm => if mm = "" then "" else String.mk ((mm.data.take 1).map pyLowerChar)
  let lastname := String.mk ((last.data.map pyLowerChar).filter (fun ch => ch ≠ ' '))
  let suffix := if pyLower student_type = "sandwich" then
      String.mk ((Nat.repr year).data.drop ((Nat.repr year).data.length - 2)) ++ "sw"
    else ""
  f ++ m ++ lastname ++ suffix ++ "@" ++ pyLower dept ++ ".uhas.edu.gh"

/-- The amended email formula: as `email_formula_claimed`, but the
middle initial is included only when middleName is non-empty after
stripping whitespace, matching the truthiness of `middle.strip()` in
the code. -/
def email_formula_stripped (first : String) (middle : Option String) (last dept : String)
    (year : Nat) (student_type : String) : String :=
  let f := String.mk ((first.data.take 1).map pyLowerChar)
  let m := match middle with
    | none => ""
    | some mm => if stripTruthy mm then String.mk ((mm.data.take 1).map pyLowerChar) else ""
  let lastname := String.mk ((last.data.map pyLowerChar).filter (fun ch => ch ≠ ' '))
  let suffix := if pyLower student_type = "sandwich" then
      String.mk ((Nat.repr year).data.drop ((Nat.repr year).data.length - 2)) ++ "sw"
    else ""
  f ++ m ++ lastname ++ suffix ++ "@" ++ pyLower dept ++ ".uhas.edu.gh"

/-- C1 counterexample: with a whitespace-only middleName `" "` — which
is non-missing and non-empty — the code drops the middle initial
(because `middle.strip()` is falsy), while the claimed formula keeps
the space as the middle initial, so the two disagree. -/
theorem C1_counterexample :
    generate_email "John" (some " ") "Doe" "sonam" 2024 "Regular" ≠
      Except.ok (email_formula_claimed "John" (some " ") "Doe" "sonam" 2024 "Regular") := by
  decide

/-- A string with a non-whitespace character has a first character. -/
theorem stripTruthy_data_ne_nil {m : String} (h : stripTruthy m = true) : m.data ≠ [] := by
  intro hnil
  unfold stripTruthy at h
  rw [hnil] at h
  cases h

/-- C1 (amended): for every non-empty firstName, the generated email
follows the spec formula `{f}{m}{lastname}{suffix}@{dept}.uhas.edu.gh`
with the middle initial included exactly when middleName is
non-missing and non-empty after stripping whitespace. -/
theorem C1_amended_email_formula (first : String) (middle : Option String) (last dept : String)
    (year : Nat) (student_type : String) (hf : first ≠ "") :
    generate_email first middle last dept year student_type =
      .ok (email_formula_stripped first middle last dept year student_type) := by
  obtain ⟨l⟩ := first
  rcases l with _ | ⟨c, cs⟩
  · exact absurd rfl hf
  · unfold generate_email email_formula_stripped
    change Except.ok _ = Except.ok _
    congr 1
    apply String.ext
    simp only [String.data_append]
    rcases middle with _ | m
    · simp only [middle_letter]
      simp [year_suffix, pyLower, List.append_assoc]
      split <;> rfl
    · by_cases hs : stripTruthy m
      · rcases hm : m.data with _ | ⟨mc, ms⟩
        · exact absurd hm (stripTruthy_data_ne_nil hs)
        · simp only [middle_letter, hs, if_true, hm]
          simp [year_suffix, pyLower, List.append_assoc]
          split <;> rfl
      · simp only [middle_letter, hs, if_false]
        simp [year_suffix, pyLower, List.append_assoc]
        split <;> rfl

/-- Witness for C1 (amended) at a concrete input, exercising the
middle initial and the Sandwich suffix. -/
theorem C1_amended_witness :
    generate_email "Ama" (some "Kofi") "Mensah" "sph" 2025 "Sandwich" =
      .ok (email_formula_stripped "Ama" (some "Kofi") "Mensah" "sph" 2025 "Sandwich") :=
  C1_amended_email_formula "Ama" (some "Kofi") "Mensah" "sph" 2025 "Sandwich" (by decide)

/-- C7: for non-empty firstName and lastName, with an empty middleName
and studentType `"Regular"`, the local part of the email is exactly
the first letter of firstName lowercased followed by lastName
lowercased with spaces removed — no suffix before the `"@"`. -/
theorem C7_regular_no_suffix (first last dept : String) (year : Nat)
    (hf : first ≠ "") (hl : last ≠ "") :
    generate_email first (some "") last dept year "Regular" =
      .ok (String.mk ((first.data.take 1).map pyLowerChar
          ++ (last.data.map pyLowerChar).filter (fun ch => ch ≠ ' ')
          ++ '@' :: (dept.data.map pyLowerChar) ++ ".uhas.edu.gh".data)) := by
  obtain ⟨l⟩ := first
  rcases l with _ | ⟨c, cs⟩
  · exact absurd rfl hf
  · unfold generate_email
    change Except.ok _ = Except.ok _
    congr 1
    apply String.ext
    have hml : middle_letter (some "") = [] := rfl
    have hys : year_suffix year "Regular" = [] := rfl
    simp [hml, hys, List.append_assoc]

/-- Witness for C7 at a concrete input. -/
theorem C7_regular_no_suffix_witness :
    generate_email "John" (some "") "Doe" "sonam" 2024 "Regular" =
      .ok (String.mk (("John".data.take 1).map pyLowerChar
          ++ ("Doe".data.map pyLowerChar).filter (fun ch => ch ≠ ' ')
          ++ '@' :: ("sonam".data.map pyLowerChar) ++ ".uhas.edu.gh".data)) :=
  C7_regular_no_suffix "John" "Doe" "sonam" 2024 (by decide) (by decide)

/-- C4 counterexample: adding the new school `"sop"` with keyword
`"Nursing"` to the default mapping and then classifying
`"BSc Nursing"` — a programme containing that keyword — returns
`"sonam"`, the earlier matching department, not the new code
`"sop"`. -/
theorem C4_counterexample :
    pyContains (pyLower "BSc Nursing") (pyLower "Nursing") = true ∧
      get_school_from_programme "BSc Nursing"
          (add_school school_mapping_default "sop" "Nursing") = "sonam" ∧
      "sonam" ≠ "sop" := by
  refine ⟨by decide, by decide, by decide⟩

/-- C4 (amended): after adding a new department (a code not already a
key, with one keyword), classifying a programme that contains the
keyword case-insensitively returns the new department code — provided
no existing department's keyword already matches the programme (the
new key is appended last in mapping iteration order, so any earlier
match wins instead). -/
theorem C4_amended_new_school (mapping : List (String × List String))
    (new_school keyword programme : String)
    (h1 : new_school ≠ "") (h2 : keyword ≠ "")
    (h3 : mapping.all (fun e => e.1 ≠ new_school) = true)
    (h4 : ∀ e ∈ mapping, ∀ prog ∈ e.2, pyContains (pyLower programme) (pyLower prog) = false)
    (h5 : pyContains (pyLower programme) (pyLower keyword) = true) :
    get_school_from_programme programme (add_school mapping new_school keyword) =
      new_school := by
  unfold add_school
  rw [if_pos ⟨h1, h2, h3⟩]
  clear h3
  revert h4
  induction mapping with
  | nil =>
    intro h4
    simp [get_school_from_programme, h5]
  | cons e rest ih =>
    intro h4
    obtain ⟨school, progs⟩ := e
    have hnone : progs.any (fun prog => pyContains (pyLower programme) (pyLower prog)) = false := by
      rw [List.any_eq_false]
      intro prog hp
      simp [h4 (school, progs) (List.mem_cons_self _ _) prog hp]
    have hstep : ((school, progs) :: rest) ++ [(new_school, [keyword])] =
        (school, progs) :: (rest ++ [(new_school, [keyword])]) := rfl
    rw [hstep]
    simp only [get_school_from_programme, hnone]
    simp only [Bool.false_eq_true, if_false]
    exact ih (fun e he prog hp => h4 e (List.mem_cons_of_mem _ he) prog hp)

/-- Witness for C4 (amended): adding `"sop"` with keyword
`"Pharmacy"` — which no default department matches — and classifying
`"Doctor of Pharmacy"` returns `"sop"`. -/
theorem C4_amended_new_school_witness :
    get_school_from_programme "Doctor of Pharmacy"
      (add_school school_mapping_default "sop" "Pharmacy") = "sop" := by
  apply C4_amended_new_school <;> decide
